import Mathlib

/-
Verification of the YaraDB Python HTTP client (`yaradb_client/client.py`)
against its natural-language specification.

The client is shallowly embedded: HTTP responses are records of status code,
decoded-JSON result and raw text; each client method is split into the request
it constructs (method, URL, JSON body, query params) and the result it produces
from a transport outcome (a response, or a transport-level failure).  Raised
Python exceptions become `Except` errors.
-/

set_option autoImplicit false

namespace YaraDB

/-- A JSON value as produced by decoding a response body.  Numbers are
modelled as integers (the payloads the client builds only contain integers);
an object is the association list of a parsed JSON dict, so keys are distinct
and lookup returns the unique bound value. -/
inductive Json where
  | null
  | bool (b : Bool)
  | num (n : Int)
  | str (s : String)
  | arr (elems : List Json)
  | obj (entries : List (String × Json))

/-- Lookup in a parsed JSON object, as Python `dict.get(key)`:
`none` when the key is absent. -/
def dictGet (entries : List (String × Json)) (key : String) : Option Json :=
  match entries with
  | [] => none
  | (k, v) :: rest => if k = key then some v else dictGet rest key

/-- A single-quote character, used by Python repr of strings. -/
def sq : String := ⟨[Char.ofNat 39]⟩

mutual

/-- Python `repr` of a decoded-JSON value (strings are wrapped in single
quotes; escaping inside strings is not modelled). -/
def pyRepr : Json → String
  | .null => "None"
  | .bool true => "True"
  | .bool false => "False"
  | .num n => toString n
  | .str s => sq ++ s ++ sq
  | .arr es => "[" ++ pyReprList es ++ "]"
  | .obj kvs => "\x7b" ++ pyReprObj kvs ++ "\x7d"

/-- Comma-separated reprs of the elements of a list. -/
def pyReprList : List Json → String
  | [] => ""
  | [j] => pyRepr j
  | j :: rest => pyRepr j ++ ", " ++ pyReprList rest

/-- Comma-separated `'key': value` reprs of the entries of a dict. -/
def pyReprObj : List (String × Json) → String
  | [] => ""
  | [(k, v)] => sq ++ k ++ sq ++ ": " ++ pyRepr v
  | (k, v) :: rest => sq ++ k ++ sq ++ ": " ++ pyRepr v ++ ", " ++ pyReprObj rest

end

/-- Python `str` of a decoded-JSON value: the string itself for strings,
`repr` otherwise (as in f-string interpolation and `str(response_json)`). -/
def pyStr : Json → String
  | .str s => s
  | j => pyRepr j

/-- Lowercase hex digit for `n < 16`. -/
def hexDigit (n : Nat) : Char :=
  if n < 10 then Char.ofNat (48 + n) else Char.ofNat (87 + n)

/-- The `d` low-order hex digits of `n`, most significant first. -/
def hexChars : Nat → Nat → List Char
  | _, 0 => []
  | n, d + 1 => hexChars (n / 16) d ++ [hexDigit (n % 16)]

/-- Canonical string form of a UUID with integer value `n`, as Python
`str(uuid.UUID)`: 32 lowercase hex digits grouped 8-4-4-4-12. -/
def uuidCanonical (n : Nat) : String :=
  let cs := hexChars n 32
  ⟨cs.take 8⟩ ++ "-" ++ ⟨(cs.drop 8).take 4⟩ ++ "-" ++ ⟨(cs.drop 12).take 4⟩
    ++ "-" ++ ⟨(cs.drop 16).take 4⟩ ++ "-" ++ ⟨cs.drop 20⟩

/-- A document identifier argument, `Union[str, uuid.UUID]`: either a plain
string or a UUID value object (carried as its 128-bit integer value). -/
inductive DocId where
  | str (s : String)
  | uuid (n : Nat)

/-- Python `str(doc_id)`: the string itself, or the canonical UUID form. -/
def DocId.toStr : DocId → String
  | .str s => s
  | .uuid n => uuidCanonical n

/-- An HTTP response as seen by the client: its status code, the result of
decoding its body as JSON (`none` when `response.json()` raises
`JSONDecodeError`), and the raw body text. -/
structure Response where
  status_code : Nat
  json : Option Json
  text : String

/-- The exception hierarchy of the client.  Every variant except
`connectionError` carries the `message` and `status_code` passed to
`YaraError.__init__`; `connectionError` carries the constructor arguments of
`YaraConnectionError` (its message is derived from them). -/
inductive YaraExc where
  | yaraError (message : Json) (status_code : Option Nat)
  | connectionError (host : String) (original_error : String)
  | notFound (message : Json) (status_code : Option Nat)
  | conflict (message : Json) (status_code : Option Nat)
  | badRequest (message : Json) (status_code : Option Nat)

/-- The `status_code` attribute of a raised exception
(`None` for `YaraConnectionError`). -/
def YaraExc.statusCode : YaraExc → Option Nat
  | .yaraError _ s => s
  | .connectionError _ _ => none
  | .notFound _ s => s
  | .conflict _ s => s
  | .badRequest _ s => s

/-- The `message` attribute of a raised exception. -/
def YaraExc.message : YaraExc → Json
  | .yaraError m _ => m
  | .connectionError h e =>
      .str ("Failed to connect to " ++ h ++ ". Is the server running? Error: " ++ e)
  | .notFound m _ => m
  | .conflict m _ => m
  | .badRequest m _ => m

/-- Whether the exception is exactly the base `YaraError` (the generic API
error), not one of its subclasses. -/
def YaraExc.isGeneric : YaraExc → Bool
  | .yaraError _ _ => true
  | _ => false

/-- Whether the exception is a `YaraNotFoundError`. -/
def YaraExc.isNotFound : YaraExc → Bool
  | .notFound _ _ => true
  | _ => false

/-- Whether the exception is a `YaraConflictError`. -/
def YaraExc.isConflict : YaraExc → Bool
  | .conflict _ _ => true
  | _ => false

/-- Whether the exception is a `YaraBadRequestError`. -/
def YaraExc.isBadRequest : YaraExc → Bool
  | .badRequest _ _ => true
  | _ => false

/-- The `error_detail` computed by `YaraClient._handle_response` for a
non-200 response: the `detail` entry of a decoded dict (default
`"Unknown API error"`), `str()` of any other decoded value, and on decode
failure the raw text, or `"Unknown API error"` when the text is empty. -/
def error_detail (r : Response) : Json :=
  match r.json with
  | some (Json.obj kvs) =>
      match dictGet kvs "detail" with
      | some v => v
      | none => Json.str "Unknown API error"
  | some j => Json.str (pyStr j)
  | none => Json.str (if r.text = "" then "Unknown API error" else r.text)

/-- `YaraClient._handle_response`: return the decoded JSON of a 200 response,
raise on everything else, with the error class chosen by the status code. -/
def handle_response (r : Response) : Except YaraExc Json :=
  if r.status_code = 200 then
    match r.json with
    | some j => .ok j
    | none => .error (.yaraError (.str "Invalid JSON response from server") (some r.status_code))
  else
    let ed := error_detail r
    if r.status_code = 404 then .error (.notFound ed (some 404))
    else if r.status_code = 409 then .error (.conflict ed (some 409))
    else if r.status_code = 400 then .error (.badRequest ed (some 400))
    else if r.status_code = 422 then
      .error (.badRequest (.str ("Validation Error: " ++ pyStr ed)) (some 422))
    else .error (.yaraError ed (some r.status_code))

/-- Outcome of issuing an HTTP request for the non-ping operations: either a
response arrives, or the transport raises `requests.ConnectionError` (carried
as the text of the underlying exception).  Each such operation catches only
`requests.ConnectionError`. -/
inductive TransportOutcome where
  | response (r : Response)
  | connectionFailure (e : String)

/-- Outcome of the liveness request issued by `ping`, which additionally
distinguishes `requests.Timeout` (the request is sent with `timeout=3`). -/
inductive PingOutcome where
  | response (r : Response)
  | connectionFailure (e : String)
  | timeout

/-- A Python exception that `ping` does not catch and lets propagate:
`requests.JSONDecodeError` from `response.json()` on an undecodable body, or
`AttributeError` from calling `.get` on a decoded non-dict value. -/
inductive RawError where
  | jsonDecodeError
  | attributeError

/-- Python `decoded.get("status") == "alive"` on a decoded dict: true exactly
when the entry is present and is the string `"alive"`. -/
def statusIsAlive : Option Json → Bool
  | some (.str s) => s == "alive"
  | _ => false

/-- `YaraClient.ping`: GET `/ping` with a 3-second timeout; `false` on
connection failure or timeout; on a response, `true` iff the status is 200 and
the decoded body's `status` entry equals `"alive"`.  Due to `and`
short-circuiting, the body is only decoded when the status is 200; a decode
failure or a non-dict body there raises (is not caught). -/
def ping : PingOutcome → Except RawError Bool
  | .connectionFailure _ => .ok false
  | .timeout => .ok false
  | .response r =>
      if r.status_code = 200 then
        match r.json with
        | none => .error .jsonDecodeError
        | some (.obj kvs) => .ok (statusIsAlive (dictGet kvs "status"))
        | some _ => .error .attributeError
      else .ok false

/-- An HTTP request as the client hands it to `requests`: method, full URL,
optional JSON body, query params. -/
structure HttpRequest where
  method : String
  url : String
  body : Option Json
  params : List (String × Json)

/-- Request built by `YaraClient.create`. -/
def create_request (host table_name name : String) (body : Json) : HttpRequest :=
  ⟨"POST", host ++ "/document/create",
    some (.obj [("table_name", .str table_name), ("name", .str name), ("body", body)]), []⟩

/-- Request built by `YaraClient.get`. -/
def get_request (host : String) (doc_id : DocId) : HttpRequest :=
  ⟨"GET", host ++ "/document/get/" ++ doc_id.toStr, none, []⟩

/-- Request built by `YaraClient.find`. -/
def find_request (host : String) (filter_body : Json) (include_archived : Bool) : HttpRequest :=
  ⟨"POST", host ++ "/document/find", some filter_body,
    [("include_archived", .bool include_archived)]⟩

/-- Request built by `YaraClient.update`. -/
def update_request (host : String) (doc_id : DocId) (version : Int) (body : Json) : HttpRequest :=
  ⟨"PUT", host ++ "/document/update/" ++ doc_id.toStr,
    some (.obj [("version", .num version), ("body", body)]), []⟩

/-- Request built by `YaraClient.archive`. -/
def archive_request (host : String) (doc_id : DocId) : HttpRequest :=
  ⟨"PUT", host ++ "/document/archive/" ++ doc_id.toStr, none, []⟩

/-- Request built by `YaraClient.combine` with an explicit `merge_strategy`. -/
def combine_request (host : String) (document_ids : List DocId) (name merge_strategy : String) :
    HttpRequest :=
  ⟨"POST", host ++ "/document/combine",
    some (.obj [("name", .str name),
                ("document_ids", .arr (document_ids.map (fun d => Json.str d.toStr))),
                ("merge_strategy", .str merge_strategy)]), []⟩

/-- Request built by `YaraClient.combine` when the caller leaves
`merge_strategy` at its default, `"overwrite"`. -/
def combine_request_default (host : String) (document_ids : List DocId) (name : String) :
    HttpRequest :=
  combine_request host document_ids name "overwrite"

/-- Payload built by `YaraClient.create_table`: `name`, `mode`, `read_only`
always; `schema_definition` only under `if schema:` (Python truthiness — a
supplied empty dict is falsy), `unique_fields` likewise under
`if unique_fields:`. -/
def create_table_payload (name mode : String) (schema : Option (List (String × Json)))
    (unique_fields : Option (List String)) (read_only : Bool) : List (String × Json) :=
  let base := [("name", Json.str name), ("mode", Json.str mode), ("read_only", Json.bool read_only)]
  let withSchema :=
    match schema with
    | some s => if s.isEmpty then base else base ++ [("schema_definition", Json.obj s)]
    | none => base
  match unique_fields with
  | some u => if u.isEmpty then withSchema
      else withSchema ++ [("unique_fields", Json.arr (u.map Json.str))]
  | none => withSchema

/-- Request built by `YaraClient.create_table`. -/
def create_table_request (host name mode : String) (schema : Option (List (String × Json)))
    (unique_fields : Option (List String)) (read_only : Bool) : HttpRequest :=
  ⟨"POST", host ++ "/table/create",
    some (.obj (create_table_payload name mode schema unique_fields read_only)), []⟩

/-- Request built by `YaraClient.list_tables`. -/
def list_tables_request (host : String) : HttpRequest :=
  ⟨"GET", host ++ "/table/list", none, []⟩

/-- Request built by `YaraClient.get_table`: the table name is interpolated
into the path verbatim. -/
def get_table_request (host name : String) : HttpRequest :=
  ⟨"GET", host ++ "/table/" ++ name, none, []⟩

/-- Request built by `YaraClient.delete_table`. -/
def delete_table_request (host name : String) : HttpRequest :=
  ⟨"DELETE", host ++ "/table/" ++ name, none, []⟩

/-- Request built by `YaraClient.get_table_documents`. -/
def get_table_documents_request (host name : String) : HttpRequest :=
  ⟨"GET", host ++ "/table/" ++ name ++ "/documents", none, []⟩

/-- Request built by `YaraClient.self_destruct`. -/
def self_destruct_request (host verification_phrase : String) (safety_pin : Int)
    (confirm : Bool) : HttpRequest :=
  ⟨"DELETE", host ++ "/system/self-destruct",
    some (.obj [("verification_phrase", .str verification_phrase),
                ("safety_pin", .num safety_pin), ("confirm", .bool confirm)]), []⟩

/-- Result of `YaraClient.create` given the transport outcome: the shared
`try`/`except requests.ConnectionError` wrapper around `_handle_response`. -/
def create_result (host : String) : TransportOutcome → Except YaraExc Json
  | .connectionFailure e => .error (.connectionError host e)
  | .response r => handle_response r

/-- Result of `YaraClient.get` given the transport outcome. -/
def get_result (host : String) : TransportOutcome → Except YaraExc Json
  | .connectionFailure e => .error (.connectionError host e)
  | .response r => handle_response r

/-- Result of `YaraClient.find` given the transport outcome. -/
def find_result (host : String) : TransportOutcome → Except YaraExc Json
  | .connectionFailure e => .error (.connectionError host e)
  | .response r => handle_response r

/-- Result of `YaraClient.update` given the transport outcome. -/
def update_result (host : String) : TransportOutcome → Except YaraExc Json
  | .connectionFailure e => .error (.connectionError host e)
  | .response r => handle_response r

/-- Result of `YaraClient.archive` given the transport outcome. -/
def archive_result (host : String) : TransportOutcome → Except YaraExc Json
  | .connectionFailure e => .error (.connectionError host e)
  | .response r => handle_response r

/-- Result of `YaraClient.combine` given the transport outcome. -/
def combine_result (host : String) : TransportOutcome → Except YaraExc Json
  | .connectionFailure e => .error (.connectionError host e)
  | .response r => handle_response r

/-- Result of `YaraClient.create_table` given the transport outcome. -/
def create_table_result (host : String) : TransportOutcome → Except YaraExc Json
  | .connectionFailure e => .error (.connectionError host e)
  | .response r => handle_response r

/-- Result of `YaraClient.list_tables` given the transport outcome. -/
def list_tables_result (host : String) : TransportOutcome → Except YaraExc Json
  | .connectionFailure e => .error (.connectionError host e)
  | .response r => handle_response r

/-- Result of `YaraClient.get_table` given the transport outcome. -/
def get_table_result (host : String) : TransportOutcome → Except YaraExc Json
  | .connectionFailure e => .error (.connectionError host e)
  | .response r => handle_response r

/-- Result of `YaraClient.delete_table` given the transport outcome. -/
def delete_table_result (host : String) : TransportOutcome → Except YaraExc Json
  | .connectionFailure e => .error (.connectionError host e)
  | .response r => handle_response r

/-- Result of `YaraClient.get_table_documents` given the transport outcome. -/
def get_table_documents_result (host : String) : TransportOutcome → Except YaraExc Json
  | .connectionFailure e => .error (.connectionError host e)
  | .response r => handle_response r

/-- Result of `YaraClient.self_destruct` given the transport outcome. -/
def self_destruct_result (host : String) : TransportOutcome → Except YaraExc Json
  | .connectionFailure e => .error (.connectionError host e)
  | .response r => handle_response r

/-- C4: for every operation other than ping, an HTTP 200 response whose body
fails to decode as JSON raises the generic `YaraError` with status code 200
and the malformed-output message, and never returns data. -/
theorem claim_C4 (r : Response) (h200 : r.status_code = 200) (hjson : r.json = none) :
    handle_response r =
      .error (.yaraError (.str "Invalid JSON response from server") (some 200)) := by
  simp [handle_response, h200, hjson]

/-- Witness for C4 at the concrete response `200, undecodable body`. -/
theorem claim_C4_witness :
    handle_response ⟨200, none, "garbage"⟩ =
      .error (.yaraError (.str "Invalid JSON response from server") (some 200)) :=
  claim_C4 ⟨200, none, "garbage"⟩ rfl rfl

/-- C5: every operation other than ping maps a transport-level connection
failure to `YaraConnectionError`, whose status code is absent and whose
message carries the target host and the underlying cause; the operation's
result type shows no raw transport exception escapes. -/
theorem claim_C5 (host e : String) :
    create_result host (.connectionFailure e) = .error (.connectionError host e) ∧
    get_result host (.connectionFailure e) = .error (.connectionError host e) ∧
    find_result host (.connectionFailure e) = .error (.connectionError host e) ∧
    update_result host (.connectionFailure e) = .error (.connectionError host e) ∧
    archive_result host (.connectionFailure e) = .error (.connectionError host e) ∧
    combine_result host (.connectionFailure e) = .error (.connectionError host e) ∧
    create_table_result host (.connectionFailure e) = .error (.connectionError host e) ∧
    list_tables_result host (.connectionFailure e) = .error (.connectionError host e) ∧
    get_table_result host (.connectionFailure e) = .error (.connectionError host e) ∧
    delete_table_result host (.connectionFailure e) = .error (.connectionError host e) ∧
    get_table_documents_result host (.connectionFailure e) = .error (.connectionError host e) ∧
    self_destruct_result host (.connectionFailure e) = .error (.connectionError host e) ∧
    YaraExc.statusCode (.connectionError host e) = none ∧
    YaraExc.message (.connectionError host e) =
      .str ("Failed to connect to " ++ host ++ ". Is the server running? Error: " ++ e) :=
  ⟨rfl, rfl, rfl, rfl, rfl, rfl, rfl, rfl, rfl, rfl, rfl, rfl, rfl, rfl⟩

/-- C1: on every non-2xx response, `_handle_response` raises an error whose
status code equals the HTTP status, with the class determined by the status:
404 `YaraNotFoundError`, 409 `YaraConflictError`, 400 `YaraBadRequestError`,
422 `YaraBadRequestError` with the message prefixed by the validation-error
marker, and the generic `YaraError` otherwise. -/
theorem claim_C1 (r : Response) (h : r.status_code < 200 ∨ 300 ≤ r.status_code) :
    ∃ e : YaraExc, handle_response r = .error e ∧
      e.statusCode = some r.status_code ∧
      (r.status_code = 404 → e = .notFound (error_detail r) (some 404)) ∧
      (r.status_code = 409 → e = .conflict (error_detail r) (some 409)) ∧
      (r.status_code = 400 → e = .badRequest (error_detail r) (some 400)) ∧
      (r.status_code = 422 →
        e = .badRequest (.str ("Validation Error: " ++ pyStr (error_detail r))) (some 422)) ∧
      (r.status_code ≠ 404 → r.status_code ≠ 409 → r.status_code ≠ 400 → r.status_code ≠ 422 →
        e = .yaraError (error_detail r) (some r.status_code)) := by
  have h200 : ¬ r.status_code = 200 := by omega
  by_cases h404 : r.status_code = 404
  · refine ⟨.notFound (error_detail r) (some 404), ?_, ?_, fun _ => rfl, ?_, ?_, ?_, ?_⟩
    · simp [handle_response, h200, h404]
    · simp [YaraExc.statusCode, h404]
    · intro hx; omega
    · intro hx; omega
    · intro hx; omega
    · intro hx; omega
  · by_cases h409 : r.status_code = 409
    · refine ⟨.conflict (error_detail r) (some 409), ?_, ?_, ?_, fun _ => rfl, ?_, ?_, ?_⟩
      · simp [handle_response, h200, h404, h409]
      · simp [YaraExc.statusCode, h409]
      · intro hx; omega
      · intro hx; omega
      · intro hx; omega
      · intro hx; omega
    · by_cases h400 : r.status_code = 400
      · refine ⟨.badRequest (error_detail r) (some 400), ?_, ?_, ?_, ?_, fun _ => rfl, ?_, ?_⟩
        · simp [handle_response, h200, h404, h409, h400]
        · simp [YaraExc.statusCode, h400]
        · intro hx; omega
        · intro hx; omega
        · intro hx; omega
        · intro hx; omega
      · by_cases h422 : r.status_code = 422
        · refine ⟨.badRequest (.str ("Validation Error: " ++ pyStr (error_detail r))) (some 422),
            ?_, ?_, ?_, ?_, ?_, fun _ => rfl, ?_⟩
          · simp [handle_response, h200, h404, h409, h400, h422]
          · simp [YaraExc.statusCode, h422]
          · intro hx; omega
          · intro hx; omega
          · intro hx; omega
          · intro hx; omega
        · refine ⟨.yaraError (error_detail r) (some r.status_code), ?_, rfl, ?_, ?_, ?_, ?_,
            fun _ _ _ _ => rfl⟩
          · simp [handle_response, h200, h404, h409, h400, h422]
          · intro hx; omega
          · intro hx; omega
          · intro hx; omega
          · intro hx; omega

/-- Witness for C1 at the concrete 422 response of the spec's scenario:
body `detail: field required`, raised message `Validation Error: field
required`, status code 422. -/
theorem claim_C1_witness :
    handle_response ⟨422, some (.obj [("detail", Json.str "field required")]), ""⟩ =
      .error (.badRequest (.str "Validation Error: field required") (some 422)) := by
  obtain ⟨e, he, -, -, -, -, h422, -⟩ :=
    claim_C1 ⟨422, some (.obj [("detail", Json.str "field required")]), ""⟩ (Or.inr (by decide))
  rw [he, h422 rfl]
  rfl

/-- C3 counterexample: a 2xx-but-not-200 response with a decodable body does
not return the decoded body — status 201 with body `{}` raises the generic
`YaraError` carrying status 201. -/
theorem claim_C3_counterexample :
    handle_response ⟨201, some (Json.obj []), "x"⟩ =
      .error (.yaraError (.str "Unknown API error") (some 201)) := rfl

/-- C3 (amended): for every operation other than ping, the call returns the
decoded JSON body exactly when the HTTP status is 200 (and the body decodes),
and raises a typed error for every other status — including non-200 2xx
statuses — or for a 200 body that fails to decode; there is no outcome other
than full success or full failure. -/
theorem claim_C3_amended (r : Response) :
    (r.status_code = 200 → ∀ j, r.json = some j → handle_response r = .ok j) ∧
    (r.status_code = 200 → r.json = none → ∃ e, handle_response r = .error e) ∧
    (r.status_code ≠ 200 → ∃ e, handle_response r = .error e) ∧
    (∀ j, handle_response r = .ok j → r.status_code = 200 ∧ r.json = some j) := by
  refine ⟨?_, ?_, ?_, ?_⟩
  · intro h j hj
    simp [handle_response, h, hj]
  · intro h hj
    exact ⟨.yaraError (.str "Invalid JSON response from server") (some 200),
      by simp [handle_response, h, hj]⟩
  · intro h
    simp only [handle_response, if_neg h]
    repeat' split
    all_goals exact ⟨_, rfl⟩
  · intro j hj
    by_cases h : r.status_code = 200
    · refine ⟨h, ?_⟩
      cases hje : r.json with
      | none =>
          rw [handle_response, if_pos h, hje] at hj
          exact absurd hj (by simp)
      | some v =>
          rw [handle_response, if_pos h, hje] at hj
          simp only [Except.ok.injEq] at hj
          rw [hj]
    · exfalso
      rw [handle_response, if_neg h] at hj
      repeat' split at hj
      all_goals simp at hj

/-- Witness for C3 (amended) at a concrete 200 response with body `null`. -/
theorem claim_C3_witness :
    handle_response ⟨200, some Json.null, "null"⟩ = .ok Json.null :=
  (claim_C3_amended ⟨200, some Json.null, "null"⟩).1 rfl Json.null rfl

/-- C6 counterexample: at status 422 the raised message is not the body's
`detail` field but that field with the validation marker prepended. -/
theorem claim_C6_counterexample :
    handle_response ⟨422, some (Json.obj [("detail", Json.str "field required")]), ""⟩ =
      .error (.badRequest (.str "Validation Error: field required") (some 422)) ∧
    Json.str "Validation Error: field required" ≠ Json.str "field required" := by
  refine ⟨rfl, ?_⟩
  simp

/-- C6 (amended): for every non-200 response, the error detail is derived
from the body exactly as the claim states (detail field of a decoded mapping
with a generic fallback, stringification of any other decoded value, raw text
or generic fallback on decode failure), and the raised error's message equals
that detail for every status except 422, where it is the detail prefixed with
the validation-error marker. -/
theorem claim_C6_amended (r : Response) (h : r.status_code ≠ 200) :
    (∀ kvs v, r.json = some (.obj kvs) → dictGet kvs "detail" = some v →
      error_detail r = v) ∧
    (∀ kvs, r.json = some (.obj kvs) → dictGet kvs "detail" = none →
      error_detail r = .str "Unknown API error") ∧
    (∀ j, r.json = some j → (∀ kvs, j ≠ .obj kvs) → error_detail r = .str (pyStr j)) ∧
    (r.json = none → r.text ≠ "" → error_detail r = .str r.text) ∧
    (r.json = none → r.text = "" → error_detail r = .str "Unknown API error") ∧
    (∀ e, handle_response r = .error e →
      (r.status_code = 422 →
        e.message = .str ("Validation Error: " ++ pyStr (error_detail r))) ∧
      (r.status_code ≠ 422 → e.message = error_detail r)) := by
  refine ⟨?_, ?_, ?_, ?_, ?_, ?_⟩
  · intro kvs v hjson hget
    simp [error_detail, hjson, hget]
  · intro kvs hjson hget
    simp [error_detail, hjson, hget]
  · intro j hjson hne
    cases j with
    | obj kvs => exact absurd rfl (hne kvs)
    | null => simp [error_detail, hjson]
    | bool b => simp [error_detail, hjson]
    | num n => simp [error_detail, hjson]
    | str s => simp [error_detail, hjson]
    | arr es => simp [error_detail, hjson]
  · intro hjson htext
    simp [error_detail, hjson, htext]
  · intro hjson htext
    simp [error_detail, hjson, htext]
  · intro e he
    simp only [handle_response, if_neg h] at he
    constructor
    · intro h422
      simp only [h422] at he
      norm_num at he
      rw [← he]
      rfl
    · intro hne422
      by_cases h404 : r.status_code = 404
      · simp only [h404] at he
        norm_num at he
        rw [← he]
        rfl
      · by_cases h409 : r.status_code = 409
        · simp only [h409] at he
          norm_num at he
          rw [← he]
          rfl
        · by_cases h400 : r.status_code = 400
          · simp only [h400] at he
            norm_num at he
            rw [← he]
            rfl
          · rw [if_neg h404, if_neg h409, if_neg h400, if_neg hne422] at he
            simp only [Except.error.injEq] at he
            rw [← he]
            rfl

/-- Witness for C6 (amended) at a concrete 404 response whose body holds a
`detail` field. -/
theorem claim_C6_witness :
    error_detail ⟨404, some (.obj [("detail", Json.str "missing")]), ""⟩ =
      Json.str "missing" :=
  (claim_C6_amended ⟨404, some (.obj [("detail", Json.str "missing")]), ""⟩
    (by decide)).1 [("detail", Json.str "missing")] (Json.str "missing") rfl rfl

/-- C2 counterexample: a 200 response whose body fails to decode as JSON
makes `ping` raise the decode error instead of returning a boolean (the
`response.json()` call is outside the `except` clauses). -/
theorem claim_C2_counterexample :
    ping (.response ⟨200, none, "oops"⟩) = .error .jsonDecodeError := rfl

/-- C2 (amended): `ping` returns `false` without raising on every
transport-level connection failure or timeout, and on every non-200 response;
on a 200 response whose body decodes to a JSON mapping it returns a boolean
that is `true` exactly when the mapping's `status` entry equals `"alive"`.
Only a 200 response whose body fails to decode (or decodes to a non-mapping)
escapes this: there the decode (or attribute) error propagates. -/
theorem claim_C2_amended :
    (∀ e, ping (.connectionFailure e) = .ok false) ∧
    (ping .timeout = .ok false) ∧
    (∀ r, r.status_code ≠ 200 → ping (.response r) = .ok false) ∧
    (∀ kvs text, ping (.response ⟨200, some (.obj kvs), text⟩) =
      .ok (statusIsAlive (dictGet kvs "status"))) ∧
    (∀ kvs, statusIsAlive (dictGet kvs "status") = true ↔
      dictGet kvs "status" = some (Json.str "alive")) := by
  refine ⟨fun e => rfl, rfl, ?_, fun kvs text => rfl, ?_⟩
  · intro r h
    simp [ping, h]
  · intro kvs
    cases h : dictGet kvs "status" with
    | none => simp [statusIsAlive]
    | some v => cases v <;> simp [statusIsAlive]

/-- Witness for C2 (amended): a refused-connection outcome and a concrete
alive response. -/
theorem claim_C2_witness :
    ping (.connectionFailure "refused") = .ok false ∧
    ping (.response ⟨500, some (Json.obj []), ""⟩) = .ok false ∧
    ping (.response ⟨200, some (Json.obj [("status", Json.str "alive")]), ""⟩) = .ok true := by
  refine ⟨claim_C2_amended.1 "refused",
    claim_C2_amended.2.2.1 ⟨500, some (Json.obj []), ""⟩ (by decide), ?_⟩
  have h := claim_C2_amended.2.2.2.1 [("status", Json.str "alive")] ""
  rw [h]
  rfl

/-- C7 counterexample: a supplied-but-empty `schema` argument is dropped from
the payload — Python `if schema:` tests truthiness, not presence — so the
`schema_definition` key is absent even though the caller supplied the
argument. -/
theorem claim_C7_counterexample :
    (some ([] : List (String × Json))).isSome = true ∧
    dictGet (create_table_payload "t" "strict" (some []) none false)
      "schema_definition" = none :=
  ⟨rfl, rfl⟩

/-- C7 (amended): the `create_table` payload always carries `name`, `mode`
and `read_only`; it carries `schema_definition` (resp. `unique_fields`)
exactly when the corresponding optional argument is supplied with a truthy —
that is, non-empty — value; and `create_table` with `mode="strict"` and no
schema still builds the full request, with both optional keys absent, rather
than failing locally. -/
theorem claim_C7_amended (host name mode : String) (schema : Option (List (String × Json)))
    (unique_fields : Option (List String)) (read_only : Bool) :
    dictGet (create_table_payload name mode schema unique_fields read_only) "name" =
      some (.str name) ∧
    dictGet (create_table_payload name mode schema unique_fields read_only) "mode" =
      some (.str mode) ∧
    dictGet (create_table_payload name mode schema unique_fields read_only) "read_only" =
      some (.bool read_only) ∧
    ((∃ v, dictGet (create_table_payload name mode schema unique_fields read_only)
        "schema_definition" = some v) ↔ ∃ s, schema = some s ∧ s ≠ []) ∧
    ((∃ v, dictGet (create_table_payload name mode schema unique_fields read_only)
        "unique_fields" = some v) ↔ ∃ u, unique_fields = some u ∧ u ≠ []) ∧
    create_table_request host name "strict" none none read_only =
      ⟨"POST", host ++ "/table/create",
        some (.obj [("name", .str name), ("mode", .str "strict"),
                    ("read_only", .bool read_only)]), []⟩ := by
  rcases schema with _ | s <;> rcases unique_fields with _ | u
  · simp [create_table_payload, create_table_request, dictGet]
  · rcases u with _ | ⟨u0, u⟩ <;>
      simp [create_table_payload, create_table_request, dictGet]
  · rcases s with _ | ⟨s0, s⟩ <;>
      simp [create_table_payload, create_table_request, dictGet]
  · rcases s with _ | ⟨s0, s⟩ <;> rcases u with _ | ⟨u0, u⟩ <;>
      simp [create_table_payload, create_table_request, dictGet]

/-- Witness for C7 (amended): a supplied non-empty schema makes the
`schema_definition` key present. -/
theorem claim_C7_witness :
    ∃ v, dictGet (create_table_payload "t" "strict" (some [("a", Json.null)]) none false)
      "schema_definition" = some v :=
  (claim_C7_amended "http://127.0.0.1:8000" "t" "strict" (some [("a", Json.null)])
    none false).2.2.2.1.mpr ⟨[("a", Json.null)], rfl, by simp⟩

/-- C8: a document identifier supplied as a UUID value object is serialized
to its canonical string form (32 lowercase hex digits grouped 8-4-4-4-12) in
the URL path of `get`, `update` and `archive` and in the `document_ids` list
of the `combine` payload. -/
theorem claim_C8 (host : String) (n : Nat) (version : Int) (body : Json)
    (ids : List DocId) (nm strat : String) :
    DocId.toStr (.uuid n) = uuidCanonical n ∧
    (get_request host (.uuid n)).url = host ++ "/document/get/" ++ uuidCanonical n ∧
    (update_request host (.uuid n) version body).url =
      host ++ "/document/update/" ++ uuidCanonical n ∧
    (archive_request host (.uuid n)).url = host ++ "/document/archive/" ++ uuidCanonical n ∧
    (combine_request host ids nm strat).body =
      some (.obj [("name", .str nm),
                  ("document_ids", .arr (ids.map (fun d => Json.str d.toStr))),
                  ("merge_strategy", .str strat)]) ∧
    uuidCanonical 0x12345678 = "00000000-0000-0000-0000-000012345678" :=
  ⟨rfl, rfl, rfl, rfl, rfl, rfl⟩

/-- C9: a `combine` call that leaves the merge strategy at its default sends
a payload whose `merge_strategy` entry is `"overwrite"`. -/
theorem claim_C9 (host : String) (ids : List DocId) (nm : String) :
    ∃ payload, (combine_request_default host ids nm).body = some (.obj payload) ∧
      dictGet payload "merge_strategy" = some (.str "overwrite") :=
  ⟨_, rfl, rfl⟩

/-- C10: the table-operation URLs are formed by verbatim interpolation of the
caller-supplied name — no percent-encoding or validation — so a name
containing `/` changes the path-segment structure: `get_table` of
`name ++ "/documents"` builds the very request `get_table_documents` builds
for `name`. -/
theorem claim_C10 (host name : String) :
    (get_table_request host name).url = host ++ "/table/" ++ name ∧
    (delete_table_request host name).url = host ++ "/table/" ++ name ∧
    (get_table_documents_request host name).url = host ++ "/table/" ++ name ++ "/documents" ∧
    get_table_request host (name ++ "/documents") = get_table_documents_request host name := by
  refine ⟨rfl, rfl, rfl, ?_⟩
  simp [get_table_request, get_table_documents_request, String.append_assoc]

end YaraDB
